import Mathlib

/-!
Shallow embedding of the blood-pressure monitor's signal-processing core
(`src/main.cpp`), with theorems checking the specification's claims.

Doubles are modelled as rationals (`ℚ`); the fixed 1000-entry C arrays
together with their monotone write pointers are modelled as append-only
lists; the scalar globals of `main.cpp` become fields of `SessionState`.
Buffer indices stored in `int` variables are replaced by directly storing
the value that the code would read back out of the (immutable during the
scan) array at that index.
-/

namespace BPM

/-- Result record of `Systolic_and_diastolic_bp_calculator`
(struct `BP_PARAMETER` in the source; the two `..._char_ratio` fields
are named `..._char_dev` here). -/
structure BP_PARAMETER where
  systolic_bloodpressure : ℚ
  diastolic_bloodpressure : ℚ
  systolic_char_dev : ℚ
  diastolic_char_dev : ℚ
  deriving Repr, DecidableEq

/-- Result record of `measure_pulse` (struct `PULSE_READING`). -/
structure PULSE_READING where
  pulse_value : ℚ
  pulse_data_count : ℕ
  deriving Repr, DecidableEq

/-- Embedding of `calculate_normalized_pressure`: fold over the 5-slot
buffer accumulating `total_value` and `total_count` over the non-zero
slots, then divide.  (In `ℚ` the division yields `0` when every slot is
still zero; the C code divides `0.0/0.0` there, an acknowledged defect
of the source that none of the claims depends on.) -/
def calculate_normalized_pressure (buffer_queue : List ℚ) : ℚ :=
  let acc := buffer_queue.foldl
    (fun (acc : ℚ × ℕ) x => if x ≠ 0 then (acc.1 + x, acc.2 + 1) else acc)
    (0, 0)
  acc.1 / (acc.2 : ℚ)

/-- The list of consecutive differences `t[i] - t[i-1]` scanned by the
`for (int i = 1; i < omwetime_buffer_pointer; i++)` loop of
`measure_pulse`. -/
def pulse_intervals : List ℚ → List ℚ
  | a :: b :: rest => (b - a) :: pulse_intervals (b :: rest)
  | _ => []

/-- Embedding of `measure_pulse`: accumulate the consecutive inter-peak
intervals that lie strictly between `(60/150)*1000` and `(60/35)*1000`
milliseconds, then average and convert to beats per minute; when no
interval qualifies the pulse is `-1` with count `0`. -/
def measure_pulse (omwe_buffer_time : List ℚ) : PULSE_READING :=
  let pulse_upper_value : ℚ := (60 / 35) * 1000
  let pulse_lower_value : ℚ := (60 / 150) * 1000
  let acc := (pulse_intervals omwe_buffer_time).foldl
    (fun (acc : ℚ × ℕ) d =>
      if pulse_lower_value < d ∧ d < pulse_upper_value then (acc.1 + d, acc.2 + 1) else acc)
    (0, 0)
  if acc.2 ≠ 0 then
    ⟨(1000 / (acc.1 / (acc.2 : ℚ))) * 60, acc.2⟩
  else
    ⟨-1, 0⟩

/-- Target ordinate for the systolic search:
`(SYSTOLIC_LOWER_CHAR_RATIO + SYSTOLIC_UPPER_CHAR_RATIO)/2 * peak`,
computed exactly as in the source. -/
def systolic_ordinate_value (peak_pressure_diff : ℚ) : ℚ :=
  (0.45 * peak_pressure_diff + 0.73 * peak_pressure_diff) / 2

/-- Target ordinate for the diastolic search. -/
def diastolic_ordinate_value (peak_pressure_diff : ℚ) : ℚ :=
  (0.69 * peak_pressure_diff + 0.83 * peak_pressure_diff) / 2

/-- Loop state of the scan inside `Systolic_and_diastolic_bp_calculator`:
the two running minimal ordinate errors and, instead of the `int` buffer
indices (initialised to `-1`), the abscissa the final code would read
back at that index (`none` standing for the `-1` sentinel). -/
structure ScanState where
  min_systolic_ordinate_error : ℚ
  min_diastolic_ordinate_error : ℚ
  systolic_found : Option ℚ
  diastolic_found : Option ℚ
  deriving Repr, DecidableEq

/-- One iteration of the scan loop of
`Systolic_and_diastolic_bp_calculator` on the envelope point
`p = (abscissa, ordinate)`. -/
def bpScanStep (sysT diaT : ℚ) (st : ScanState) (p : ℚ × ℚ) : ScanState :=
  let st1 :=
    if |p.2 - sysT| < st.min_systolic_ordinate_error ∧ 100 < p.1 ∧ p.1 < 200 then
      { st with min_systolic_ordinate_error := |p.2 - sysT|, systolic_found := some p.1 }
    else st
  if |p.2 - diaT| < st1.min_diastolic_ordinate_error ∧ 50 < p.1 ∧ p.1 < 90 then
    { st1 with min_diastolic_ordinate_error := |p.2 - diaT|, diastolic_found := some p.1 }
  else st1

/-- Embedding of `Systolic_and_diastolic_bp_calculator`, a single pass
over the envelope sequence; `MAP_ERROR_THRESH = 0.5`, so both error
accumulators start at `0.5 + 1`. -/
def Systolic_and_diastolic_bp_calculator
    (envelope : List (ℚ × ℚ)) (peak_pressure_diff : ℚ) : BP_PARAMETER :=
  let sysT := systolic_ordinate_value peak_pressure_diff
  let diaT := diastolic_ordinate_value peak_pressure_diff
  let fin := envelope.foldl (bpScanStep sysT diaT)
    ⟨0.5 + 1, 0.5 + 1, none, none⟩
  match fin.systolic_found, fin.diastolic_found with
  | some sx, some dx =>
      ⟨sx, dx, fin.min_systolic_ordinate_error, fin.min_diastolic_ordinate_error⟩
  | _, _ =>
      ⟨-1, -1, fin.min_systolic_ordinate_error, fin.min_diastolic_ordinate_error⟩

/-- The mutable globals of `main.cpp` that the sampling loop and the
gradient ticker touch, gathered into one record.  The two OMWE arrays
with their shared write pointer `omwebuffer_pointer` become the single
append-only list `envelope` of (abscissa, ordinate) pairs, and the time
array with `omwetime_buffer_pointer` becomes the append-only list
`omwe_buffer_time`, both in chronological order. -/
structure SessionState where
  buffer_queue : List ℚ
  iteration : ℕ
  pressure_diff : ℚ
  previous_pressure_diff : ℚ
  peak_pressure_diff : ℚ
  Mean_Arterial_Pressure : ℚ
  active_recordflag : Bool
  envelope : List (ℚ × ℚ)
  omwe_buffer_time : List ℚ
  current_pressure : ℚ
  release_rate : ℚ
  flux_warning : Bool
  end_record : Bool
  deriving Repr, DecidableEq

/-- The state at program start: all globals zero-initialised, both
sequences empty. -/
def initialState : SessionState :=
  { buffer_queue := [0, 0, 0, 0, 0]
    iteration := 0
    pressure_diff := 0
    previous_pressure_diff := 0
    peak_pressure_diff := 0
    Mean_Arterial_Pressure := 0
    active_recordflag := false
    envelope := []
    omwe_buffer_time := []
    current_pressure := 0
    release_rate := 0
    flux_warning := false
    end_record := false }

/-- The external inputs consumed by one call of `measure_pressure`: the
push-button level, the calibrated pressure reading converted to mmHg,
and the pulse timer's reading in milliseconds. -/
structure SampleInput where
  button : Bool
  pressure_value : ℚ
  now : ℚ
  deriving Repr, DecidableEq

/-- Embedding of `MAP_calculator`: called after the sample has been
written into the smoothing buffer, so its normalized pressure is over
the updated buffer.  `MIN_OMWE_THRESH = 70`. -/
def MAP_calculator (s : SessionState) : SessionState :=
  let normalized_pressure := calculate_normalized_pressure s.buffer_queue
  if s.pressure_diff > s.peak_pressure_diff ∧
      normalized_pressure > 70 ∧ normalized_pressure < 110 then
    { s with peak_pressure_diff := s.pressure_diff
             Mean_Arterial_Pressure := normalized_pressure }
  else s

/-- The innermost recording block of `measure_pressure` (source lines
325-336): when the amplitude just dropped below the previous amplitude,
the previous sample was a local maximum; a peak timestamp is appended
when none exists yet or when more than 500 ms have passed since the
last one, and the envelope point `(normalized, previous amplitude)` is
always appended. -/
def envelope_update (s : SessionState)
    (normalized_pressure pressure_diff now : ℚ) : SessionState :=
  if pressure_diff < s.previous_pressure_diff then
    let times :=
      match s.omwe_buffer_time.getLast? with
      | some t =>
          if now - t > 500 then s.omwe_buffer_time ++ [now] else s.omwe_buffer_time
      | none => s.omwe_buffer_time ++ [now]
    { s with omwe_buffer_time := times
             envelope := s.envelope ++ [(normalized_pressure, s.previous_pressure_diff)] }
  else s

/-- Embedding of one call of `measure_pressure` (source lines 291-349),
minus the SPI transaction and display side effects: raw reading and
timer value arrive as `inp`.  The normalized pressure is computed over
the buffer *before* the new sample is stored (the store happens at line
340, after the recording block), and `MAP_calculator` runs after the
store. -/
def measure_pressure (s : SessionState) (inp : SampleInput) : SessionState :=
  let active_recordflag := s.active_recordflag || inp.button
  let current_pressure := inp.pressure_value
  let normalized_pressure := calculate_normalized_pressure s.buffer_queue
  let s1 :=
    if active_recordflag = true ∧ |current_pressure - normalized_pressure| < 12 then
      let pressure_diff := |current_pressure - normalized_pressure|
      let s2 :=
        if normalized_pressure > 70 ∧ normalized_pressure < 160 then
          envelope_update s normalized_pressure pressure_diff inp.now
        else s
      { s2 with pressure_diff := pressure_diff
                previous_pressure_diff := pressure_diff }
    else s
  let s3 :=
    { s1 with buffer_queue := s1.buffer_queue.set (s.iteration % 5) current_pressure
              iteration := s.iteration + 1
              active_recordflag := active_recordflag
              current_pressure := current_pressure }
  let s4 := MAP_calculator s3
  if active_recordflag = true ∧ normalized_pressure < 5 then
    { s4 with end_record := true }
  else s4

/-- Embedding of `check_pressure_gradient_ISR`: the 1 Hz ticker body.
Only acts once `iteration > 5`; recomputes the release rate and sets or
clears the flux warning from the instantaneous comparison alone. -/
def check_pressure_gradient_ISR (s : SessionState) : SessionState :=
  if s.iteration > 5 then
    let release_rate := calculate_normalized_pressure s.buffer_queue - s.current_pressure
    if release_rate > 4 then
      { s with release_rate := release_rate, flux_warning := true }
    else
      { s with release_rate := release_rate, flux_warning := false }
  else s

/-- Running the sampling loop `while (!end_record) measure_pressure();`
over a list of available inputs: the loop consumes inputs until the
termination flag is raised (or the inputs run out). -/
def runSession (s : SessionState) : List SampleInput → SessionState
  | [] => s
  | inp :: rest =>
      if s.end_record = true then s else runSession (measure_pressure s inp) rest

/-- An event of the whole session: either one sampling-loop iteration or
one firing of the gradient ticker (which is asynchronous with respect to
the sampling loop). -/
inductive SessionEvent where
  | sample (inp : SampleInput)
  | gradientTick
  deriving Repr, DecidableEq

/-- One session event applied to the state; sampling stops once the
termination flag is raised, while the ticker keeps firing. -/
def sessionStep (s : SessionState) : SessionEvent → SessionState
  | .sample inp => if s.end_record = true then s else measure_pressure s inp
  | .gradientTick => check_pressure_gradient_ISR s

/-- Running an arbitrary interleaving of samples and gradient ticks. -/
def runEvents (s : SessionState) (events : List SessionEvent) : SessionState :=
  events.foldl sessionStep s

/-- The systolic (or diastolic) half of one scan-loop iteration of
`Systolic_and_diastolic_bp_calculator`, on its own running pair of
(minimal error, found abscissa); used to reason about the two
independent searches of the combined loop separately. -/
def searchStep (lo hi target : ℚ) (st : ℚ × Option ℚ) (p : ℚ × ℚ) : ℚ × Option ℚ :=
  if |p.2 - target| < st.1 ∧ lo < p.1 ∧ p.1 < hi then (|p.2 - target|, some p.1) else st

/-- Specification-side value (the claims' words, for comparison with the
code): the non-zero samples currently held in the smoothing window. -/
def spec_nonzeroSlots (buffer_queue : List ℚ) : List ℚ :=
  buffer_queue.filter (fun x => decide (x ≠ 0))

/-- Specification-side value (the claims' words, for comparison with the
code): the consecutive inter-peak intervals lying strictly between
`60000/150` and `60000/35` milliseconds. -/
def spec_keptIntervals (omwe_buffer_time : List ℚ) : List ℚ :=
  (pulse_intervals omwe_buffer_time).filter
    (fun d => decide (60000 / 150 < d ∧ d < 60000 / 35))

/-- Specification-side value (the claims' words, for comparison with the
code): the residuals `|ordinate - target|` of the envelope entries whose
abscissa lies strictly inside the band `(lo, hi)`. -/
def spec_bandResiduals (lo hi target : ℚ) (envelope : List (ℚ × ℚ)) : List ℚ :=
  (envelope.filter (fun p => decide (lo < p.1 ∧ p.1 < hi))).map
    (fun p => |p.2 - target|)

/-! ### Helper lemmas: the smoothing window and the pulse estimator -/

/-- The conditional sum-and-count fold of `calculate_normalized_pressure`
computes the sum and the number of the non-zero slots. -/
lemma normalize_foldl (l : List ℚ) (a : ℚ) (n : ℕ) :
    l.foldl (fun (acc : ℚ × ℕ) x => if x ≠ 0 then (acc.1 + x, acc.2 + 1) else acc) (a, n)
      = (a + (spec_nonzeroSlots l).sum, n + (spec_nonzeroSlots l).length) := by
  induction l generalizing a n with
  | nil => simp [spec_nonzeroSlots]
  | cons x xs ih =>
    simp only [List.foldl_cons]
    by_cases h : x ≠ 0
    · rw [if_pos h, ih]
      have hx : spec_nonzeroSlots (x :: xs) = x :: spec_nonzeroSlots xs := by
        simp [spec_nonzeroSlots, h]
      rw [hx]
      simp only [List.sum_cons, List.length_cons, Prod.mk.injEq]
      exact ⟨by ring, by omega⟩
    · rw [if_neg h, ih]
      have hx : spec_nonzeroSlots (x :: xs) = spec_nonzeroSlots xs := by
        simp only [ne_eq, not_not] at h
        simp [spec_nonzeroSlots, h]
      rw [hx]

/-- The conditional sum-and-count fold of `measure_pulse` computes the
sum and the number of the in-range intervals. -/
lemma pulse_foldl (lo hi : ℚ) (l : List ℚ) (a : ℚ) (n : ℕ) :
    l.foldl (fun (acc : ℚ × ℕ) d => if lo < d ∧ d < hi then (acc.1 + d, acc.2 + 1) else acc) (a, n)
      = (a + (l.filter (fun d => decide (lo < d ∧ d < hi))).sum,
         n + (l.filter (fun d => decide (lo < d ∧ d < hi))).length) := by
  induction l generalizing a n with
  | nil => simp
  | cons d ds ih =>
    simp only [List.foldl_cons]
    by_cases h : lo < d ∧ d < hi
    · rw [if_pos h, ih]
      have hd : (d :: ds).filter (fun d => decide (lo < d ∧ d < hi))
          = d :: ds.filter (fun d => decide (lo < d ∧ d < hi)) := by
        simp [h]
      rw [hd]
      simp only [List.sum_cons, List.length_cons, Prod.mk.injEq]
      exact ⟨by ring, by omega⟩
    · rw [if_neg h, ih]
      have hd : (d :: ds).filter (fun d => decide (lo < d ∧ d < hi))
          = ds.filter (fun d => decide (lo < d ∧ d < hi)) := by
        simp [h]
      rw [hd]

/-- Lists shorter than 2 have no consecutive intervals. -/
lemma pulse_intervals_short (l : List ℚ) (h : l.length < 2) : pulse_intervals l = [] := by
  match l with
  | [] => rfl
  | [a] => rfl
  | a :: b :: rest => exact absurd h (by simp)

/-! ### Helper lemmas: the systolic/diastolic scan -/

/-- The systolic components of one combined scan iteration coincide with
one `searchStep` iteration over the band `(100, 200)`. -/
lemma bpScanStep_sys (sysT diaT : ℚ) (st : ScanState) (p : ℚ × ℚ) :
    ((bpScanStep sysT diaT st p).min_systolic_ordinate_error,
     (bpScanStep sysT diaT st p).systolic_found)
      = searchStep 100 200 sysT (st.min_systolic_ordinate_error, st.systolic_found) p := by
  by_cases h1 : |p.2 - sysT| < st.min_systolic_ordinate_error ∧ 100 < p.1 ∧ p.1 < 200 <;>
    simp [bpScanStep, searchStep, h1, apply_ite]

/-- The diastolic components of one combined scan iteration coincide
with one `searchStep` iteration over the band `(50, 90)`. -/
lemma bpScanStep_dia (sysT diaT : ℚ) (st : ScanState) (p : ℚ × ℚ) :
    ((bpScanStep sysT diaT st p).min_diastolic_ordinate_error,
     (bpScanStep sysT diaT st p).diastolic_found)
      = searchStep 50 90 diaT (st.min_diastolic_ordinate_error, st.diastolic_found) p := by
  by_cases h2 : |p.2 - diaT| < st.min_diastolic_ordinate_error ∧ 50 < p.1 ∧ p.1 < 90 <;>
  by_cases h1 : |p.2 - sysT| < st.min_systolic_ordinate_error ∧ 100 < p.1 ∧ p.1 < 200 <;>
    simp [bpScanStep, searchStep, h1, h2]

/-- Folded version of `bpScanStep_sys`. -/
lemma bpScan_foldl_sys (sysT diaT : ℚ) (l : List (ℚ × ℚ)) (st : ScanState) :
    ((l.foldl (bpScanStep sysT diaT) st).min_systolic_ordinate_error,
     (l.foldl (bpScanStep sysT diaT) st).systolic_found)
      = l.foldl (searchStep 100 200 sysT) (st.min_systolic_ordinate_error, st.systolic_found) := by
  induction l generalizing st with
  | nil => rfl
  | cons p rest ih => simp only [List.foldl_cons, ih, bpScanStep_sys]

/-- Folded version of `bpScanStep_dia`. -/
lemma bpScan_foldl_dia (sysT diaT : ℚ) (l : List (ℚ × ℚ)) (st : ScanState) :
    ((l.foldl (bpScanStep sysT diaT) st).min_diastolic_ordinate_error,
     (l.foldl (bpScanStep sysT diaT) st).diastolic_found)
      = l.foldl (searchStep 50 90 diaT) (st.min_diastolic_ordinate_error, st.diastolic_found) := by
  induction l generalizing st with
  | nil => rfl
  | cons p rest ih => simp only [List.foldl_cons, ih, bpScanStep_dia]

/-- If every entry inside the band has a residual at least the current
minimum, the search never updates: the running minimum is untouched and
no candidate is recorded. -/
lemma searchStep_foldl_stuck (lo hi t m : ℚ) (l : List (ℚ × ℚ))
    (h : ∀ p ∈ l, lo < p.1 → p.1 < hi → m ≤ |p.2 - t|) :
    l.foldl (searchStep lo hi t) (m, none) = (m, none) := by
  induction l with
  | nil => rfl
  | cons p rest ih =>
    rw [List.foldl_cons]
    have hstep : searchStep lo hi t (m, none) p = (m, none) := by
      unfold searchStep
      rw [if_neg]
      rintro ⟨h1, h2, h3⟩
      exact absurd h1 (not_lt.mpr (h p (List.mem_cons_self p rest) h2 h3))
    rw [hstep]
    exact ih (fun q hq h2 h3 => h q (List.mem_cons_of_mem p hq) h2 h3)

/-- The running minimal error of the greedy strictly-improving search
equals the fold of `min` over the in-band residuals, started at the
initialization value. -/
lemma searchStep_foldl_min (lo hi t : ℚ) (l : List (ℚ × ℚ)) (m : ℚ) (b : Option ℚ) :
    (l.foldl (searchStep lo hi t) (m, b)).1
      = (spec_bandResiduals lo hi t l).foldl min m := by
  induction l generalizing m b with
  | nil => rfl
  | cons p rest ih =>
    rw [List.foldl_cons]
    by_cases hband : lo < p.1 ∧ p.1 < hi
    · have hres : spec_bandResiduals lo hi t (p :: rest)
          = |p.2 - t| :: spec_bandResiduals lo hi t rest := by
        simp [spec_bandResiduals, hband]
      rw [hres, List.foldl_cons]
      by_cases hlt : |p.2 - t| < m
      · have hstep : searchStep lo hi t (m, b) p = (|p.2 - t|, some p.1) := by
          unfold searchStep
          rw [if_pos ⟨hlt, hband.1, hband.2⟩]
        rw [hstep, ih]
        congr 1
        exact (min_eq_right hlt.le).symm
      · have hstep : searchStep lo hi t (m, b) p = (m, b) := by
          unfold searchStep
          rw [if_neg]
          rintro ⟨h1, _, _⟩
          exact hlt h1
        rw [hstep, ih]
        congr 1
        exact (min_eq_left (not_lt.mp hlt)).symm
    · have hres : spec_bandResiduals lo hi t (p :: rest) = spec_bandResiduals lo hi t rest := by
        simp [spec_bandResiduals, hband]
      have hstep : searchStep lo hi t (m, b) p = (m, b) := by
        unfold searchStep
        rw [if_neg]
        rintro ⟨_, h2, h3⟩
        exact hband ⟨h2, h3⟩
      rw [hres, hstep, ih]

/-- Unfolding `Systolic_and_diastolic_bp_calculator`: the two char-dev
fields always carry the final running minima, and when either search
recorded no candidate both pressures are the `-1` sentinel. -/
lemma bp_calc_cases (envelope : List (ℚ × ℚ)) (peak : ℚ) :
    ((Systolic_and_diastolic_bp_calculator envelope peak).systolic_char_dev
        = (envelope.foldl
            (bpScanStep (systolic_ordinate_value peak) (diastolic_ordinate_value peak))
            ⟨0.5 + 1, 0.5 + 1, none, none⟩).min_systolic_ordinate_error) ∧
    ((Systolic_and_diastolic_bp_calculator envelope peak).diastolic_char_dev
        = (envelope.foldl
            (bpScanStep (systolic_ordinate_value peak) (diastolic_ordinate_value peak))
            ⟨0.5 + 1, 0.5 + 1, none, none⟩).min_diastolic_ordinate_error) ∧
    (((envelope.foldl
            (bpScanStep (systolic_ordinate_value peak) (diastolic_ordinate_value peak))
            ⟨0.5 + 1, 0.5 + 1, none, none⟩).systolic_found = none ∨
      (envelope.foldl
            (bpScanStep (systolic_ordinate_value peak) (diastolic_ordinate_value peak))
            ⟨0.5 + 1, 0.5 + 1, none, none⟩).diastolic_found = none) →
      (Systolic_and_diastolic_bp_calculator envelope peak).systolic_bloodpressure = -1 ∧
      (Systolic_and_diastolic_bp_calculator envelope peak).diastolic_bloodpressure = -1) := by
  unfold Systolic_and_diastolic_bp_calculator
  rcases h1 : (envelope.foldl
      (bpScanStep (systolic_ordinate_value peak) (diastolic_ordinate_value peak))
      (⟨0.5 + 1, 0.5 + 1, none, none⟩ : ScanState)).systolic_found with _ | sx <;>
  rcases h2 : (envelope.foldl
      (bpScanStep (systolic_ordinate_value peak) (diastolic_ordinate_value peak))
      (⟨0.5 + 1, 0.5 + 1, none, none⟩ : ScanState)).diastolic_found with _ | dx <;>
    simp [h1, h2]

/-- The systolic search of `Systolic_and_diastolic_bp_calculator` stays
at its initialization when every in-band entry has residual at least the
running minimum's initial value. -/
lemma bp_calc_sys_stuck (envelope : List (ℚ × ℚ)) (peak : ℚ)
    (h : ∀ p ∈ envelope, 100 < p.1 → p.1 < 200 →
        0.5 + 1 ≤ |p.2 - systolic_ordinate_value peak|) :
    ((envelope.foldl
        (bpScanStep (systolic_ordinate_value peak) (diastolic_ordinate_value peak))
        ⟨0.5 + 1, 0.5 + 1, none, none⟩).min_systolic_ordinate_error,
     (envelope.foldl
        (bpScanStep (systolic_ordinate_value peak) (diastolic_ordinate_value peak))
        ⟨0.5 + 1, 0.5 + 1, none, none⟩).systolic_found) = (0.5 + 1, none) := by
  have hpair :
      ((envelope.foldl
          (bpScanStep (systolic_ordinate_value peak) (diastolic_ordinate_value peak))
          ⟨0.5 + 1, 0.5 + 1, none, none⟩).min_systolic_ordinate_error,
       (envelope.foldl
          (bpScanStep (systolic_ordinate_value peak) (diastolic_ordinate_value peak))
          ⟨0.5 + 1, 0.5 + 1, none, none⟩).systolic_found)
        = envelope.foldl (searchStep 100 200 (systolic_ordinate_value peak))
            ((0.5 : ℚ) + 1, none) :=
    bpScan_foldl_sys _ _ envelope _
  rw [hpair, searchStep_foldl_stuck _ _ _ _ _ h]

/-- Diastolic analogue of `bp_calc_sys_stuck`. -/
lemma bp_calc_dia_stuck (envelope : List (ℚ × ℚ)) (peak : ℚ)
    (h : ∀ p ∈ envelope, 50 < p.1 → p.1 < 90 →
        0.5 + 1 ≤ |p.2 - diastolic_ordinate_value peak|) :
    ((envelope.foldl
        (bpScanStep (systolic_ordinate_value peak) (diastolic_ordinate_value peak))
        ⟨0.5 + 1, 0.5 + 1, none, none⟩).min_diastolic_ordinate_error,
     (envelope.foldl
        (bpScanStep (systolic_ordinate_value peak) (diastolic_ordinate_value peak))
        ⟨0.5 + 1, 0.5 + 1, none, none⟩).diastolic_found) = (0.5 + 1, none) := by
  have hpair :
      ((envelope.foldl
          (bpScanStep (systolic_ordinate_value peak) (diastolic_ordinate_value peak))
          ⟨0.5 + 1, 0.5 + 1, none, none⟩).min_diastolic_ordinate_error,
       (envelope.foldl
          (bpScanStep (systolic_ordinate_value peak) (diastolic_ordinate_value peak))
          ⟨0.5 + 1, 0.5 + 1, none, none⟩).diastolic_found)
        = envelope.foldl (searchStep 50 90 (diastolic_ordinate_value peak))
            ((0.5 : ℚ) + 1, none) :=
    bpScan_foldl_dia _ _ envelope _
  rw [hpair, searchStep_foldl_stuck _ _ _ _ _ h]

/-! ### Claim theorems: systolic/diastolic estimator -/

/-- C2: for every envelope sequence and peak amplitude, if no envelope
entry has its abscissa strictly inside `(100, 200)` or no entry has its
abscissa strictly inside `(50, 90)` — in particular when the envelope is
empty — then both the systolic and the diastolic pressure of the result
are negative sentinels, even if only one of the two searches failed. -/
theorem C2_sentinel_on_band_failure (envelope : List (ℚ × ℚ)) (peak_pressure_diff : ℚ)
    (h : (∀ p ∈ envelope, ¬(100 < p.1 ∧ p.1 < 200)) ∨
         (∀ p ∈ envelope, ¬(50 < p.1 ∧ p.1 < 90))) :
    (Systolic_and_diastolic_bp_calculator envelope peak_pressure_diff).systolic_bloodpressure < 0 ∧
    (Systolic_and_diastolic_bp_calculator envelope peak_pressure_diff).diastolic_bloodpressure < 0 := by
  obtain ⟨-, -, hsent⟩ := bp_calc_cases envelope peak_pressure_diff
  rcases h with h | h
  · have hstuck := bp_calc_sys_stuck envelope peak_pressure_diff
      (fun p hp h2 h3 => absurd ⟨h2, h3⟩ (h p hp))
    have hnone := congrArg Prod.snd hstuck
    simp only [Prod.snd] at hnone
    obtain ⟨h1, h2⟩ := hsent (Or.inl hnone)
    rw [h1, h2]
    norm_num
  · have hstuck := bp_calc_dia_stuck envelope peak_pressure_diff
      (fun p hp h2 h3 => absurd ⟨h2, h3⟩ (h p hp))
    have hnone := congrArg Prod.snd hstuck
    simp only [Prod.snd] at hnone
    obtain ⟨h1, h2⟩ := hsent (Or.inr hnone)
    rw [h1, h2]
    norm_num

/-- Witness for C2 on a concrete envelope: the single entry `(80, 0)`
lies in the diastolic band but not in the systolic band, and both
results are nevertheless negative. -/
theorem C2_sentinel_on_band_failure_witness :
    (Systolic_and_diastolic_bp_calculator [((80 : ℚ), 0)] 0).systolic_bloodpressure < 0 ∧
    (Systolic_and_diastolic_bp_calculator [((80 : ℚ), 0)] 0).diastolic_bloodpressure < 0 :=
  C2_sentinel_on_band_failure [((80 : ℚ), 0)] 0
    (Or.inl (by
      intro p hp
      rw [List.mem_singleton] at hp
      subst hp
      norm_num))

/-- C9: the estimator accepts an in-band entry as a candidate only when
its residual is strictly below `MAP_ERROR_THRESH + 1 = 1.5`: whenever
every entry inside the systolic band (respectively diastolic band) has a
residual of at least `1.5` for the corresponding target, both pressures
carry the negative sentinel even though in-band candidates may exist,
and the reported residual is the initialization value `1.5`. -/
theorem C9_error_threshold (envelope : List (ℚ × ℚ)) (peak_pressure_diff : ℚ) :
    ((∀ p ∈ envelope, 100 < p.1 → p.1 < 200 →
        0.5 + 1 ≤ |p.2 - systolic_ordinate_value peak_pressure_diff|) →
      (Systolic_and_diastolic_bp_calculator envelope peak_pressure_diff).systolic_bloodpressure
          = -1 ∧
      (Systolic_and_diastolic_bp_calculator envelope peak_pressure_diff).diastolic_bloodpressure
          = -1 ∧
      (Systolic_and_diastolic_bp_calculator envelope peak_pressure_diff).systolic_char_dev
          = 0.5 + 1) ∧
    ((∀ p ∈ envelope, 50 < p.1 → p.1 < 90 →
        0.5 + 1 ≤ |p.2 - diastolic_ordinate_value peak_pressure_diff|) →
      (Systolic_and_diastolic_bp_calculator envelope peak_pressure_diff).systolic_bloodpressure
          = -1 ∧
      (Systolic_and_diastolic_bp_calculator envelope peak_pressure_diff).diastolic_bloodpressure
          = -1 ∧
      (Systolic_and_diastolic_bp_calculator envelope peak_pressure_diff).diastolic_char_dev
          = 0.5 + 1) := by
  obtain ⟨hcs, hcd, hsent⟩ := bp_calc_cases envelope peak_pressure_diff
  constructor
  · intro h
    have hstuck := bp_calc_sys_stuck envelope peak_pressure_diff h
    have hnone := congrArg Prod.snd hstuck
    have hmin := congrArg Prod.fst hstuck
    simp only [Prod.snd, Prod.fst] at hnone hmin
    obtain ⟨h1, h2⟩ := hsent (Or.inl hnone)
    exact ⟨h1, h2, by rw [hcs, hmin]⟩
  · intro h
    have hstuck := bp_calc_dia_stuck envelope peak_pressure_diff h
    have hnone := congrArg Prod.snd hstuck
    have hmin := congrArg Prod.fst hstuck
    simp only [Prod.snd, Prod.fst] at hnone hmin
    obtain ⟨h1, h2⟩ := hsent (Or.inr hnone)
    exact ⟨h1, h2, by rw [hcd, hmin]⟩

/-- Witness for C9: the single entry `(150, 10)` lies inside the
systolic band `(100, 200)` with residual `10 ≥ 1.5`, so the result is
the double sentinel with reported systolic residual `1.5`. -/
theorem C9_error_threshold_witness :
    (Systolic_and_diastolic_bp_calculator [((150 : ℚ), 10)] 0).systolic_bloodpressure = -1 ∧
    (Systolic_and_diastolic_bp_calculator [((150 : ℚ), 10)] 0).diastolic_bloodpressure = -1 ∧
    (Systolic_and_diastolic_bp_calculator [((150 : ℚ), 10)] 0).systolic_char_dev = 0.5 + 1 :=
  (C9_error_threshold [((150 : ℚ), 10)] 0).1 (by
    intro p hp h1 h2
    rw [List.mem_singleton] at hp
    subst hp
    norm_num [systolic_ordinate_value])

/-- C3 (counterexample): with the single envelope entry `(150, 10)` and
peak amplitude `0`, the entry lies inside the systolic band and its
residual is `10`, yet the reported systolic residual field is the
initialization value `1.5`, not the closest achieved in-band residual. -/
theorem C3_counterexample :
    (100 < (150 : ℚ) ∧ (150 : ℚ) < 200) ∧
    |(10 : ℚ) - systolic_ordinate_value 0| = 10 ∧
    (Systolic_and_diastolic_bp_calculator [((150 : ℚ), 10)] 0).systolic_char_dev ≠ 10 := by
  refine ⟨by norm_num, by norm_num [systolic_ordinate_value], ?_⟩
  norm_num [Systolic_and_diastolic_bp_calculator, bpScanStep,
    systolic_ordinate_value, diastolic_ordinate_value, abs_eq_max_neg, max_def]

/-- C3 (amended): the two residual fields equal the fold of `min` over
the in-band residuals *started at the initialization value `1.5`* — that
is, the closest achieved in-band residual whenever some in-band entry
comes within `1.5` of the target, and the cap `1.5` otherwise —
regardless of whether the estimate succeeded or returned the failure
sentinel. -/
theorem C3_residual_fields (envelope : List (ℚ × ℚ)) (peak_pressure_diff : ℚ) :
    (Systolic_and_diastolic_bp_calculator envelope peak_pressure_diff).systolic_char_dev
      = (spec_bandResiduals 100 200 (systolic_ordinate_value peak_pressure_diff)
          envelope).foldl min (0.5 + 1) ∧
    (Systolic_and_diastolic_bp_calculator envelope peak_pressure_diff).diastolic_char_dev
      = (spec_bandResiduals 50 90 (diastolic_ordinate_value peak_pressure_diff)
          envelope).foldl min (0.5 + 1) := by
  obtain ⟨hcs, hcd, -⟩ := bp_calc_cases envelope peak_pressure_diff
  constructor
  · rw [hcs]
    have hpair := congrArg Prod.fst
      (bpScan_foldl_sys (systolic_ordinate_value peak_pressure_diff)
        (diastolic_ordinate_value peak_pressure_diff) envelope
        ⟨0.5 + 1, 0.5 + 1, none, none⟩)
    simp only [Prod.fst] at hpair
    rw [hpair]
    exact searchStep_foldl_min 100 200 _ envelope (0.5 + 1) none
  · rw [hcd]
    have hpair := congrArg Prod.fst
      (bpScan_foldl_dia (systolic_ordinate_value peak_pressure_diff)
        (diastolic_ordinate_value peak_pressure_diff) envelope
        ⟨0.5 + 1, 0.5 + 1, none, none⟩)
    simp only [Prod.fst] at hpair
    rw [hpair]
    exact searchStep_foldl_min 50 90 _ envelope (0.5 + 1) none

/-! ### Claim theorems: pulse estimator -/

/-- C4 (counterexample): the timestamps `[0, 400]` give the single
interval `400 = 60000/150` ms, which lies inside the closed interval
`[60000/150, 60000/35]` claimed to be kept, yet the code keeps no
interval at all and reports the undetermined sentinel. -/
theorem C4_counterexample :
    (60000 : ℚ) / 150 ≤ 400 ∧ (400 : ℚ) ≤ 60000 / 35 ∧
    (measure_pulse [0, 400]).pulse_data_count = 0 ∧
    (measure_pulse [0, 400]).pulse_value = -1 := by
  norm_num [measure_pulse, pulse_intervals]

/-- C4 (amended): the pulse estimator keeps exactly the consecutive
inter-peak intervals lying *strictly* between `60000/150` and
`60000/35` ms, returns `60000` divided by the arithmetic mean of the
kept intervals together with their count, and whenever zero intervals
qualify — in particular whenever fewer than 2 timestamps were
recorded — it returns pulse `-1` with count `0`. -/
theorem C4_pulse (omwe_buffer_time : List ℚ) :
    ((measure_pulse omwe_buffer_time).pulse_data_count
        = (spec_keptIntervals omwe_buffer_time).length) ∧
    ((spec_keptIntervals omwe_buffer_time).length ≠ 0 →
      (measure_pulse omwe_buffer_time).pulse_value
        = 60000 / ((spec_keptIntervals omwe_buffer_time).sum
            / ((spec_keptIntervals omwe_buffer_time).length : ℚ))) ∧
    ((spec_keptIntervals omwe_buffer_time).length = 0 →
      (measure_pulse omwe_buffer_time).pulse_value = -1 ∧
      (measure_pulse omwe_buffer_time).pulse_data_count = 0) ∧
    (omwe_buffer_time.length < 2 → (spec_keptIntervals omwe_buffer_time).length = 0) := by
  have hkept : (pulse_intervals omwe_buffer_time).filter
      (fun d => decide ((60 : ℚ) / 150 * 1000 < d ∧ d < (60 : ℚ) / 35 * 1000))
        = spec_keptIntervals omwe_buffer_time := by
    unfold spec_keptIntervals
    simp only [show (60 : ℚ) / 150 * 1000 = 60000 / 150 by norm_num,
      show (60 : ℚ) / 35 * 1000 = 60000 / 35 by norm_num]
  have hfold := pulse_foldl ((60 : ℚ) / 150 * 1000) ((60 : ℚ) / 35 * 1000)
    (pulse_intervals omwe_buffer_time) 0 0
  rw [hkept] at hfold
  have heval : measure_pulse omwe_buffer_time
      = if (spec_keptIntervals omwe_buffer_time).length ≠ 0 then
          (⟨(1000 / ((spec_keptIntervals omwe_buffer_time).sum
              / ((spec_keptIntervals omwe_buffer_time).length : ℚ))) * 60,
            (spec_keptIntervals omwe_buffer_time).length⟩ : PULSE_READING)
        else ⟨-1, 0⟩ := by
    simp only [measure_pulse]
    rw [hfold]
    norm_num
  refine ⟨?_, ?_, ?_, ?_⟩
  · rw [heval]
    by_cases h : (spec_keptIntervals omwe_buffer_time).length = 0 <;> simp [h]
  · intro h
    rw [heval, if_pos h]
    show (1000 / _) * 60 = _
    ring
  · intro h
    rw [heval, if_neg (by simpa using h)]
    exact ⟨rfl, rfl⟩
  · intro h
    unfold spec_keptIntervals
    rw [pulse_intervals_short omwe_buffer_time h]
    rfl

/-- Witness for C4 at the specification's own example: peaks at
`0, 800, 1600, 2400` ms give three kept 800 ms intervals and a pulse of
75 bpm. -/
theorem C4_pulse_witness :
    (measure_pulse [0, 800, 1600, 2400]).pulse_data_count = 3 ∧
    (measure_pulse [0, 800, 1600, 2400]).pulse_value = 75 := by
  have hkept : spec_keptIntervals [0, 800, 1600, 2400] = [800, 800, 800] := by
    norm_num [spec_keptIntervals, pulse_intervals]
  obtain ⟨hcount, hval, -, -⟩ := C4_pulse [0, 800, 1600, 2400]
  rw [hkept] at hcount hval
  refine ⟨by simpa using hcount, ?_⟩
  have := hval (by norm_num)
  rw [this]
  norm_num

/-! ### Claim theorems: sample normalizer -/

/-- C5: for every smoothing-window state holding at least one non-zero
slot, `calculate_normalized_pressure` returns the arithmetic mean of
exactly the non-zero slots, and that value lies between any lower bound
and any upper bound of the non-zero samples currently held — in
particular between their minimum and maximum. -/
theorem C5_normalize_mean_bounds (buffer_queue : List ℚ)
    (h : spec_nonzeroSlots buffer_queue ≠ []) :
    (calculate_normalized_pressure buffer_queue
        = (spec_nonzeroSlots buffer_queue).sum
            / ((spec_nonzeroSlots buffer_queue).length : ℚ)) ∧
    (∀ m, (∀ x ∈ spec_nonzeroSlots buffer_queue, m ≤ x) →
        m ≤ calculate_normalized_pressure buffer_queue) ∧
    (∀ M, (∀ x ∈ spec_nonzeroSlots buffer_queue, x ≤ M) →
        calculate_normalized_pressure buffer_queue ≤ M) := by
  have hlen : (0 : ℚ) < ((spec_nonzeroSlots buffer_queue).length : ℚ) := by
    have := List.length_pos.mpr h
    exact_mod_cast this
  have heq : calculate_normalized_pressure buffer_queue
      = (spec_nonzeroSlots buffer_queue).sum
          / ((spec_nonzeroSlots buffer_queue).length : ℚ) := by
    unfold calculate_normalized_pressure
    rw [normalize_foldl]
    norm_num
  refine ⟨heq, ?_, ?_⟩
  · intro m hm
    rw [heq, le_div_iff₀ hlen]
    have := List.card_nsmul_le_sum (spec_nonzeroSlots buffer_queue) m hm
    rw [nsmul_eq_mul] at this
    calc m * ((spec_nonzeroSlots buffer_queue).length : ℚ)
        = ((spec_nonzeroSlots buffer_queue).length : ℚ) * m := by ring
      _ ≤ _ := this
  · intro M hM
    rw [heq, div_le_iff₀ hlen]
    have := List.sum_le_card_nsmul (spec_nonzeroSlots buffer_queue) M hM
    rw [nsmul_eq_mul] at this
    calc (spec_nonzeroSlots buffer_queue).sum
        ≤ ((spec_nonzeroSlots buffer_queue).length : ℚ) * M := this
      _ = M * ((spec_nonzeroSlots buffer_queue).length : ℚ) := by ring

/-- Witness for C5 on the concrete window `[0, 0, 100, 0, 102]`: the
non-zero slots are `100` and `102`, and the returned mean `101` lies
between them. -/
theorem C5_normalize_mean_bounds_witness :
    calculate_normalized_pressure [0, 0, 100, 0, 102] = 101 ∧
    (100 : ℚ) ≤ calculate_normalized_pressure [0, 0, 100, 0, 102] ∧
    calculate_normalized_pressure [0, 0, 100, 0, 102] ≤ 102 := by
  have hnz : spec_nonzeroSlots [0, 0, 100, 0, 102] = [100, 102] := by
    norm_num [spec_nonzeroSlots]
  obtain ⟨heq, hlo, hhi⟩ := C5_normalize_mean_bounds [0, 0, 100, 0, 102]
    (by rw [hnz]; simp)
  refine ⟨?_, ?_, ?_⟩
  · rw [heq, hnz]
    norm_num
  · refine hlo 100 ?_
    rw [hnz]
    intro x hx
    simp only [List.mem_cons, List.not_mem_nil, or_false] at hx
    rcases hx with rfl | rfl <;> norm_num
  · refine hhi 102 ?_
    rw [hnz]
    intro x hx
    simp only [List.mem_cons, List.not_mem_nil, or_false] at hx
    rcases hx with rfl | rfl <;> norm_num

/-! ### Helper lemmas: the session state machine -/

/-- The function `MAP_calculator` touches only the peak amplitude and
the MAP value, and never decreases the peak amplitude. -/
lemma MAP_calculator_fields (s : SessionState) :
    ∃ pk mp, MAP_calculator s
        = { s with peak_pressure_diff := pk, Mean_Arterial_Pressure := mp } ∧
      s.peak_pressure_diff ≤ pk := by
  simp only [MAP_calculator]
  split
  · next h => exact ⟨s.pressure_diff, _, rfl, le_of_lt h.1⟩
  · exact ⟨s.peak_pressure_diff, s.Mean_Arterial_Pressure, rfl, le_rfl⟩

lemma MAP_calculator_peak_le (s : SessionState) :
    s.peak_pressure_diff ≤ (MAP_calculator s).peak_pressure_diff := by
  obtain ⟨pk, mp, heq, hle⟩ := MAP_calculator_fields s
  rw [heq]
  exact hle

lemma MAP_calculator_envelope (s : SessionState) :
    (MAP_calculator s).envelope = s.envelope := by
  obtain ⟨pk, mp, heq, -⟩ := MAP_calculator_fields s
  rw [heq]

lemma MAP_calculator_times (s : SessionState) :
    (MAP_calculator s).omwe_buffer_time = s.omwe_buffer_time := by
  obtain ⟨pk, mp, heq, -⟩ := MAP_calculator_fields s
  rw [heq]

lemma MAP_calculator_flux (s : SessionState) :
    (MAP_calculator s).flux_warning = s.flux_warning := by
  obtain ⟨pk, mp, heq, -⟩ := MAP_calculator_fields s
  rw [heq]

/-- The function `envelope_update` touches only the two OMWE
sequences. -/
lemma envelope_update_fields (s : SessionState) (np pd now : ℚ) :
    ∃ ts env, envelope_update s np pd now
      = { s with omwe_buffer_time := ts, envelope := env } := by
  unfold envelope_update
  split
  · exact ⟨_, _, rfl⟩
  · exact ⟨s.omwe_buffer_time, s.envelope, rfl⟩

lemma envelope_update_peak (s : SessionState) (np pd now : ℚ) :
    (envelope_update s np pd now).peak_pressure_diff = s.peak_pressure_diff := by
  obtain ⟨ts, env, heq⟩ := envelope_update_fields s np pd now
  rw [heq]

lemma envelope_update_flux (s : SessionState) (np pd now : ℚ) :
    (envelope_update s np pd now).flux_warning = s.flux_warning := by
  obtain ⟨ts, env, heq⟩ := envelope_update_fields s np pd now
  rw [heq]

/-- What `envelope_update` does to the two sequences: either nothing, or
it appends one envelope point with the previous amplitude as ordinate,
and appends the current time as a peak timestamp exactly when no
timestamp exists yet or the last one is more than 500 ms old. -/
lemma envelope_update_cases (s : SessionState) (np pd now : ℚ) :
    (envelope_update s np pd now = s) ∨
    ((envelope_update s np pd now).envelope
        = s.envelope ++ [(np, s.previous_pressure_diff)] ∧
     ((envelope_update s np pd now).omwe_buffer_time = s.omwe_buffer_time ∨
      ((envelope_update s np pd now).omwe_buffer_time = s.omwe_buffer_time ++ [now] ∧
       (s.omwe_buffer_time = [] ∨
        ∃ t, s.omwe_buffer_time.getLast? = some t ∧ 500 < now - t)))) := by
  unfold envelope_update
  split
  · right
    refine ⟨rfl, ?_⟩
    rcases hlast : s.omwe_buffer_time.getLast? with _ | t
    · right
      refine ⟨by simp [hlast], Or.inl ?_⟩
      exact List.getLast?_eq_none_iff.mp hlast
    · by_cases hgap : now - t > 500
      · right
        exact ⟨by simp [hlast, hgap], Or.inr ⟨t, rfl, hgap⟩⟩
      · left
        simp [hlast, hgap]
  · left
    rfl

/-- One sampling step never touches the flux warning. -/
lemma measure_pressure_flux (s : SessionState) (inp : SampleInput) :
    (measure_pressure s inp).flux_warning = s.flux_warning := by
  simp only [measure_pressure]
  split_ifs <;> simp [MAP_calculator_flux, envelope_update_flux]

/-- One sampling step never decreases the best peak amplitude. -/
lemma measure_pressure_peak_le (s : SessionState) (inp : SampleInput) :
    s.peak_pressure_diff ≤ (measure_pressure s inp).peak_pressure_diff := by
  simp only [measure_pressure]
  split_ifs <;>
    exact le_trans (le_of_eq (by simp [envelope_update_peak])) (MAP_calculator_peak_le _)

/-- The envelope of one sampling step, reduced to the recording block. -/
lemma measure_pressure_env_eq (s : SessionState) (inp : SampleInput) :
    (measure_pressure s inp).envelope =
      (if (s.active_recordflag || inp.button) = true ∧
          |inp.pressure_value - calculate_normalized_pressure s.buffer_queue| < 12 then
        (if calculate_normalized_pressure s.buffer_queue > 70 ∧
            calculate_normalized_pressure s.buffer_queue < 160 then
          envelope_update s (calculate_normalized_pressure s.buffer_queue)
            |inp.pressure_value - calculate_normalized_pressure s.buffer_queue| inp.now
        else s)
      else s).envelope := by
  simp only [measure_pressure]
  split_ifs <;> simp [MAP_calculator_envelope]

/-- The peak-timestamp list of one sampling step, reduced to the
recording block. -/
lemma measure_pressure_times_eq (s : SessionState) (inp : SampleInput) :
    (measure_pressure s inp).omwe_buffer_time =
      (if (s.active_recordflag || inp.button) = true ∧
          |inp.pressure_value - calculate_normalized_pressure s.buffer_queue| < 12 then
        (if calculate_normalized_pressure s.buffer_queue > 70 ∧
            calculate_normalized_pressure s.buffer_queue < 160 then
          envelope_update s (calculate_normalized_pressure s.buffer_queue)
            |inp.pressure_value - calculate_normalized_pressure s.buffer_queue| inp.now
        else s)
      else s).omwe_buffer_time := by
  simp only [measure_pressure]
  split_ifs <;> simp [MAP_calculator_times]

/-- What one sampling step does to the two OMWE sequences: either both
untouched, or a single envelope point with in-band abscissa is appended
and at most one peak timestamp is appended, the latter only when the
list is empty or more than 500 ms past its last entry. -/
lemma measure_pressure_record (s : SessionState) (inp : SampleInput) :
    ((measure_pressure s inp).envelope = s.envelope ∧
     (measure_pressure s inp).omwe_buffer_time = s.omwe_buffer_time) ∨
    (∃ np, np = calculate_normalized_pressure s.buffer_queue ∧ 70 < np ∧ np < 160 ∧
      (measure_pressure s inp).envelope = s.envelope ++ [(np, s.previous_pressure_diff)] ∧
      ((measure_pressure s inp).omwe_buffer_time = s.omwe_buffer_time ∨
       ((measure_pressure s inp).omwe_buffer_time = s.omwe_buffer_time ++ [inp.now] ∧
        (s.omwe_buffer_time = [] ∨
         ∃ t, s.omwe_buffer_time.getLast? = some t ∧ 500 < inp.now - t)))) := by
  rw [measure_pressure_env_eq, measure_pressure_times_eq]
  by_cases hA : (s.active_recordflag || inp.button) = true ∧
      |inp.pressure_value - calculate_normalized_pressure s.buffer_queue| < 12
  · rw [if_pos hA]
    by_cases hB : calculate_normalized_pressure s.buffer_queue > 70 ∧
        calculate_normalized_pressure s.buffer_queue < 160
    · rw [if_pos hB]
      rcases envelope_update_cases s (calculate_normalized_pressure s.buffer_queue)
          |inp.pressure_value - calculate_normalized_pressure s.buffer_queue| inp.now with
        heq | ⟨henv, hts⟩
      · rw [heq]
        exact Or.inl ⟨rfl, rfl⟩
      · exact Or.inr ⟨_, rfl, hB.1, hB.2, henv, hts⟩
    · rw [if_neg hB]
      exact Or.inl ⟨rfl, rfl⟩
  · rw [if_neg hA]
    exact Or.inl ⟨rfl, rfl⟩

/-- Any property preserved by `measure_pressure` is an invariant of the
sampling loop. -/
lemma runSession_inv (P : SessionState → Prop)
    (hstep : ∀ s inp, P s → P (measure_pressure s inp)) :
    ∀ (inputs : List SampleInput) (s : SessionState), P s → P (runSession s inputs) := by
  intro inputs
  induction inputs with
  | nil => exact fun s hs => hs
  | cons inp rest ih =>
    intro s hs
    unfold runSession
    split
    · exact hs
    · exact ih _ (hstep s inp hs)

/-- The best peak amplitude never decreases across the sampling loop. -/
lemma runSession_peak_le (inputs : List SampleInput) :
    ∀ s : SessionState,
      s.peak_pressure_diff ≤ (runSession s inputs).peak_pressure_diff := by
  induction inputs with
  | nil => exact fun s => le_rfl
  | cons inp rest ih =>
    intro s
    unfold runSession
    split
    · exact le_rfl
    · exact le_trans (measure_pressure_peak_le s inp) (ih _)

/-! ### Claim theorems: MAP tracker -/

/-- C1: the best peak amplitude is monotonically non-decreasing over the
whole session; `MAP_calculator` updates it exactly when the current
amplitude strictly exceeds the best so far while the normalized pressure
lies strictly between 70 and 110, and on every such update it records
the MAP value as the normalized pressure computed at that instant. -/
theorem C1_map_tracker :
    (∀ (s : SessionState) (inputs : List SampleInput),
      s.peak_pressure_diff ≤ (runSession s inputs).peak_pressure_diff) ∧
    (∀ s : SessionState,
      (s.pressure_diff > s.peak_pressure_diff ∧
        calculate_normalized_pressure s.buffer_queue > 70 ∧
        calculate_normalized_pressure s.buffer_queue < 110) →
      ((MAP_calculator s).peak_pressure_diff = s.pressure_diff ∧
       (MAP_calculator s).Mean_Arterial_Pressure
          = calculate_normalized_pressure s.buffer_queue)) ∧
    (∀ s : SessionState,
      ¬(s.pressure_diff > s.peak_pressure_diff ∧
        calculate_normalized_pressure s.buffer_queue > 70 ∧
        calculate_normalized_pressure s.buffer_queue < 110) →
      MAP_calculator s = s) := by
  refine ⟨fun s inputs => runSession_peak_le inputs s, fun s h => ?_, fun s h => ?_⟩
  · simp only [MAP_calculator]
    rw [if_pos h]
    exact ⟨rfl, rfl⟩
  · simp only [MAP_calculator]
    rw [if_neg h]

/-- Witness for C1: a state whose current amplitude 5 beats the best 0
with in-band normalized pressure 100 records peak 5 and MAP 100. -/
theorem C1_map_tracker_witness :
    (MAP_calculator { initialState with pressure_diff := 5, buffer_queue := [100, 100, 100, 100, 100] }).peak_pressure_diff = 5 ∧
    (MAP_calculator { initialState with pressure_diff := 5, buffer_queue := [100, 100, 100, 100, 100] }).Mean_Arterial_Pressure = 100 := by
  have h := C1_map_tracker.2.1
    { initialState with pressure_diff := 5, buffer_queue := [100, 100, 100, 100, 100] }
    ⟨by norm_num [initialState],
     by norm_num [calculate_normalized_pressure, initialState],
     by norm_num [calculate_normalized_pressure, initialState]⟩
  refine ⟨?_, ?_⟩
  · rw [h.1]
  · rw [h.2]
    norm_num [calculate_normalized_pressure, initialState]

/-! ### Claim theorems: envelope tracker invariants -/

/-- C6: every envelope point ever appended has its abscissa (the
normalized pressure at detection time) within `[70, 160]`; samples whose
normalized pressure lies outside this band never produce an envelope
point. -/
theorem C6_envelope_band (inputs : List SampleInput) :
    ∀ p ∈ (runSession initialState inputs).envelope, 70 ≤ p.1 ∧ p.1 ≤ 160 := by
  have hstep : ∀ s inp, (∀ p ∈ s.envelope, 70 ≤ p.1 ∧ p.1 ≤ 160) →
      ∀ p ∈ (measure_pressure s inp).envelope, 70 ≤ p.1 ∧ p.1 ≤ 160 := by
    intro s inp hs
    rcases measure_pressure_record s inp with ⟨henv, -⟩ | ⟨np, -, h70, h160, henv, -⟩
    · rw [henv]
      exact hs
    · rw [henv]
      intro p hp
      rcases List.mem_append.mp hp with hp | hp
      · exact hs p hp
      · rw [List.mem_singleton] at hp
        subst hp
        exact ⟨le_of_lt h70, le_of_lt h160⟩
  exact runSession_inv _ hstep inputs initialState (by simp [initialState])

/-- Witness for C6 on a concrete trace producing the envelope point
`(102, 4)`, whose abscissa lies in the band. -/
theorem C6_envelope_band_witness :
    ((102 : ℚ), (4 : ℚ)) ∈ (runSession initialState
      [⟨false, 100, 0⟩, ⟨true, 104, 0⟩, ⟨true, 101, 1000⟩]).envelope ∧
    (70 ≤ (102 : ℚ) ∧ (102 : ℚ) ≤ 160) := by
  have hm : ((102 : ℚ), (4 : ℚ)) ∈ (runSession initialState
      [⟨false, 100, 0⟩, ⟨true, 104, 0⟩, ⟨true, 101, 1000⟩]).envelope := by
    norm_num [runSession, measure_pressure, envelope_update, MAP_calculator,
      calculate_normalized_pressure, initialState, abs_eq_max_neg, max_def]
  exact ⟨hm, C6_envelope_band _ _ hm⟩

/-- C7: the peak-timestamp sequence is strictly increasing and every
pair of consecutive recorded timestamps differs by at least 500 ms (the
code in fact enforces strictly more than 500 ms), for every sequence of
ingested samples. -/
theorem C7_timestamp_gaps (inputs : List SampleInput) :
    List.Chain' (fun a b => a < b ∧ a + 500 ≤ b)
      (runSession initialState inputs).omwe_buffer_time := by
  have hstep : ∀ s inp,
      List.Chain' (fun a b => a < b ∧ a + 500 ≤ b) s.omwe_buffer_time →
      List.Chain' (fun a b => a < b ∧ a + 500 ≤ b)
        (measure_pressure s inp).omwe_buffer_time := by
    intro s inp hs
    rcases measure_pressure_record s inp with ⟨-, hts⟩ | ⟨np, -, -, -, -, hcase⟩
    · rw [hts]
      exact hs
    · rcases hcase with hts | ⟨hts, hlast⟩
      · rw [hts]
        exact hs
      · rw [hts, List.chain'_append]
        refine ⟨hs, List.chain'_singleton _, ?_⟩
        intro x hx y hy
        simp only [List.head?_cons, Option.mem_def, Option.some.injEq] at hy
        subst hy
        rcases hlast with hempty | ⟨t, hfin, hgap⟩
        · rw [hempty] at hx
          simp at hx
        · rw [hfin] at hx
          simp only [Option.mem_def, Option.some.injEq] at hx
          subst hx
          constructor
          · linarith
          · linarith
  exact runSession_inv _ hstep inputs initialState (by simp [initialState])

/-- C10: the number of recorded peak timestamps never exceeds the number
of recorded envelope points, and it can be strictly smaller — a local
maximum confirmed within 500 ms of the previous timestamp appends an
envelope point but no timestamp. -/
theorem C10_sequence_counts :
    (∀ inputs : List SampleInput,
      (runSession initialState inputs).omwe_buffer_time.length
        ≤ (runSession initialState inputs).envelope.length) ∧
    (∃ inputs : List SampleInput,
      (runSession initialState inputs).omwe_buffer_time.length
        < (runSession initialState inputs).envelope.length) := by
  constructor
  · intro inputs
    have hstep : ∀ s inp,
        s.omwe_buffer_time.length ≤ s.envelope.length →
        (measure_pressure s inp).omwe_buffer_time.length
          ≤ (measure_pressure s inp).envelope.length := by
      intro s inp hs
      rcases measure_pressure_record s inp with ⟨henv, hts⟩ | ⟨np, -, -, -, henv, hcase⟩
      · rw [henv, hts]
        exact hs
      · rcases hcase with hts | ⟨hts, -⟩
        · rw [henv, hts]
          simp only [List.length_append, List.length_singleton]
          omega
        · rw [henv, hts]
          simp only [List.length_append, List.length_singleton]
          omega
    exact runSession_inv _ hstep inputs initialState (by simp [initialState])
  · refine ⟨[⟨false, 100, 0⟩, ⟨true, 106, 0⟩, ⟨true, 104, 0⟩,
      ⟨true, 110, 100⟩, ⟨true, 105, 100⟩], ?_⟩
    norm_num [runSession, measure_pressure, envelope_update, MAP_calculator,
      calculate_normalized_pressure, initialState, abs_eq_max_neg, max_def]

/-! ### Claim theorems: gradient safety monitor -/

/-- C8: once at least 6 samples have been taken (`iteration > 5`), each
evaluation of the gradient monitor sets the warning to true exactly when
the instantaneous release rate (current normalized pressure minus last
raw pressure) exceeds 4, and to false otherwise; sampling steps never
touch the warning, so it never stays latched beyond the evaluation that
triggered it, and it stays false across any run of events whose release
rate at every tick remains at most 4. -/
theorem C8_gradient_monitor :
    (∀ s : SessionState, 5 < s.iteration →
      ((check_pressure_gradient_ISR s).flux_warning = true ↔
        4 < calculate_normalized_pressure s.buffer_queue - s.current_pressure)) ∧
    (∀ (s : SessionState) (inp : SampleInput),
      (measure_pressure s inp).flux_warning = s.flux_warning) ∧
    (∀ (events : List SessionEvent) (s : SessionState),
      s.flux_warning = false →
      (∀ pre suff, events = pre ++ SessionEvent.gradientTick :: suff →
        calculate_normalized_pressure (runEvents s pre).buffer_queue
          - (runEvents s pre).current_pressure ≤ 4) →
      (runEvents s events).flux_warning = false) := by
  refine ⟨fun s hiter => ?_, measure_pressure_flux, fun events => ?_⟩
  · simp only [check_pressure_gradient_ISR]
    rw [if_pos hiter]
    by_cases hrel : calculate_normalized_pressure s.buffer_queue - s.current_pressure > 4
    · rw [if_pos hrel]
      simpa using hrel
    · rw [if_neg hrel]
      simp [hrel]
  · induction events with
    | nil => exact fun s hflux _ => hflux
    | cons e rest ih =>
      intro s hflux hrate
      have hstep : runEvents s (e :: rest) = runEvents (sessionStep s e) rest := rfl
      rw [hstep]
      have hrate' : ∀ pre suff, rest = pre ++ SessionEvent.gradientTick :: suff →
          calculate_normalized_pressure
              (runEvents (sessionStep s e) pre).buffer_queue
            - (runEvents (sessionStep s e) pre).current_pressure ≤ 4 := by
        intro pre suff heq
        have := hrate (e :: pre) suff (by rw [heq]; rfl)
        simpa [runEvents, List.foldl_cons] using this
      refine ih _ ?_ hrate'
      cases e with
      | sample inp =>
        simp only [sessionStep]
        split
        · exact hflux
        · rw [measure_pressure_flux]
          exact hflux
      | gradientTick =>
        have hr0 := hrate [] rest rfl
        simp only [runEvents, List.foldl_nil] at hr0
        simp only [sessionStep, check_pressure_gradient_ISR]
        split
        · rw [if_neg (not_lt.mpr hr0)]
        · exact hflux

/-- Witness for C8: with six samples taken and the window full of 100s,
a last raw pressure of 90 (release rate 10) turns the warning on, while
a last raw pressure of 99 (release rate 1) leaves it off across a tick. -/
theorem C8_gradient_monitor_witness :
    (check_pressure_gradient_ISR { initialState with iteration := 6, buffer_queue := [100, 100, 100, 100, 100], current_pressure := 90 }).flux_warning = true ∧
    (runEvents { initialState with iteration := 6, buffer_queue := [100, 100, 100, 100, 100], current_pressure := 99 } [SessionEvent.gradientTick]).flux_warning = false := by
  constructor
  · exact (C8_gradient_monitor.1
      { initialState with iteration := 6, buffer_queue := [100, 100, 100, 100, 100], current_pressure := 90 }
      (by norm_num)).mpr
      (by norm_num [calculate_normalized_pressure, initialState])
  · refine C8_gradient_monitor.2.2 [SessionEvent.gradientTick]
      { initialState with iteration := 6, buffer_queue := [100, 100, 100, 100, 100], current_pressure := 99 }
      (by norm_num [initialState]) ?_
    intro pre suff heq
    match pre, heq with
    | [], _ =>
      simp only [runEvents, List.foldl_nil]
      norm_num [calculate_normalized_pressure, initialState]
    | e :: pre', heq => simp at heq

end BPM
